import Mathlib

/-!
Shallow embedding of the training/inference orchestrator in `main.py`
(event-camera optical-flow competition script) and proofs about it.

The embedding covers:
* `compute_epe_error` — the end-point-error loss (value semantics over `ℝ`,
  and shape semantics with PyTorch broadcasting over `List ℕ`);
* the per-epoch loss accumulation and end-of-epoch mean report;
* the `torch.cat`-based output buffer of the inference loop;
* the checkpoint save path / hard-coded reload path;
* `set_seed` and the data-loader construction from the configuration.

Machine floats are modelled as real numbers (for the loss values, as
rationals where exact evaluation is needed); in this model every value is
finite.
-/

namespace Main

/-! ## LossEvaluator: `compute_epe_error`, value semantics

Source (`main.py`):
`epe = torch.mean(torch.mean(torch.norm(pred_flow - gt_flow, p=2, dim=1), dim=(1, 2)), dim=0)`

A `[B, C, H, W]` tensor is embedded as a function
`Fin B → Fin C → Fin H → Fin W → ℝ`.  `torch.norm (·, p=2, dim=1)` is the
square root of the sum of squares over the channel axis; `torch.mean` over
`dim=(1,2)` divides the spatial sum by `H*W`; `torch.mean` over `dim=0`
divides the batch sum by `B`. -/

noncomputable def compute_epe_error (B C H W : ℕ)
    (pred_flow gt_flow : Fin B → Fin C → Fin H → Fin W → ℝ) : ℝ :=
  (∑ b, (∑ h, ∑ w,
      Real.sqrt (∑ c, (pred_flow b c h w - gt_flow b c h w) ^ 2)) / ((H : ℝ) * (W : ℝ))) / (B : ℝ)

/-- The wording the spec gives for the EPE algorithm, for `[B, 2, H, W]` flow tensors:
at every pixel take the Euclidean norm of the 2-component difference vector,
average those per-pixel norms over the `H×W` spatial locations of each
sample, and average the per-sample results uniformly over the batch. -/
noncomputable def epe_spec_formula (B H W : ℕ)
    (pred_flow gt_flow : Fin B → Fin 2 → Fin H → Fin W → ℝ) : ℝ :=
  (∑ b, (∑ h, ∑ w,
      Real.sqrt ((pred_flow b 0 h w - gt_flow b 0 h w) ^ 2
        + (pred_flow b 1 h w - gt_flow b 1 h w) ^ 2)) / ((H : ℝ) * (W : ℝ))) / (B : ℝ)

/-! ## TrainingLoop: per-epoch loss accumulation and mean report

Source (`main.py`): `total_loss = 0`, then per batch
`total_loss += loss.item()`, and at the end of the epoch
`total_loss / len(train_data)` is reported.  `len(train_data)` is the
number of batches the loader yields (and hence the number of accumulated
per-batch losses).  Python raises `ZeroDivisionError` when the loader is
empty; the error is modelled by `Option`. -/

def epochTotalLoss (losses : List ℚ) : ℚ :=
  losses.foldl (· + ·) 0

def epochMeanLoss (losses : List ℚ) : Option ℚ :=
  if losses.length = 0 then none
  else some (epochTotalLoss losses / (losses.length : ℚ))

lemma foldl_add_eq_add_sum (a : ℚ) (l : List ℚ) :
    l.foldl (· + ·) a = a + l.sum := by
  induction l generalizing a with
  | nil => simp
  | cons x xs ih => simp [List.foldl_cons, ih (a + x), List.sum_cons]; ring

lemma epochTotalLoss_eq_sum (losses : List ℚ) :
    epochTotalLoss losses = losses.sum := by
  simpa using foldl_add_eq_add_sum 0 losses

/-- A concrete all-zero `[1, 2, 1, 1]` flow tensor, used to instantiate
hypotheses of the loss theorems. -/
def zeroFlow : Fin 1 → Fin 2 → Fin 1 → Fin 1 → ℝ :=
  fun _ _ _ _ => 0

/-! ## LossEvaluator: shape semantics

`pred_flow - gt_flow` in PyTorch broadcasts: aligning the shapes from the
right, each dimension pair must be equal or contain a `1`; otherwise the
subtraction raises a shape-mismatch `RuntimeError`.  The reductions then
require the reduced dimensions to exist: `torch.norm (·, dim=1)` removes
dimension 1, `torch.mean (·, dim=(1,2))` removes dimensions 1 and 2,
`torch.mean (·, dim=0)` removes dimension 0.  `none` models the raised
error. -/

/-- Broadcast two shapes given with their dimensions reversed
(innermost first), per the PyTorch rule: each aligned pair must be equal or
contain a `1`; a missing dimension is treated as `1`. -/
def broadcastDimsRev : List ℕ → List ℕ → Option (List ℕ)
  | [], t => some t
  | s, [] => some s
  | a :: s, b :: t =>
    if a = b ∨ a = 1 ∨ b = 1 then
      (broadcastDimsRev s t).map (fun r => (if a = 1 then b else a) :: r)
    else none

/-- Broadcast two tensor shapes (outermost dimension first). -/
def broadcastShapes (s t : List ℕ) : Option (List ℕ) :=
  (broadcastDimsRev s.reverse t.reverse).map List.reverse

/-- Remove dimension `d` from a shape, failing when the shape has no such
dimension — the shape effect of a reduction with `keepdim=False`. -/
def dropDim (s : List ℕ) (d : ℕ) : Option (List ℕ) :=
  if d < s.length then some (s.eraseIdx d) else none

/-- Shape semantics of `compute_epe_error`: broadcast the operand shapes
for the subtraction, then apply the shape effects of
`torch.norm (·, dim=1)`, `torch.mean (·, dim=(1,2))` and
`torch.mean (·, dim=0)` in order.  `some s` means the call returns a value
of shape `s`; `none` means it raises a shape error. -/
def epeShape (s t : List ℕ) : Option (List ℕ) := do
  let d ← broadcastShapes s t
  let n ← dropDim d 1
  let m2 ← dropDim n 2
  let m1 ← dropDim m2 1
  dropDim m1 0

lemma broadcastDimsRev_length :
    ∀ s t r : List ℕ, broadcastDimsRev s t = some r →
      r.length = max s.length t.length := by
  intro s
  induction s with
  | nil =>
    intro t r h
    simp only [broadcastDimsRev] at h
    cases h
    simp
  | cons a s ih =>
    intro t r h
    cases t with
    | nil =>
      simp only [broadcastDimsRev] at h
      cases h
      simp
    | cons b t =>
      simp only [broadcastDimsRev] at h
      split at h
      · rcases Option.map_eq_some'.mp h with ⟨r', hr', hcons⟩
        subst hcons
        simp [ih t r' hr', Nat.succ_max_succ]
      · exact absurd h (by simp)

lemma broadcastShapes_length (s t r : List ℕ)
    (h : broadcastShapes s t = some r) :
    r.length = max s.length t.length := by
  unfold broadcastShapes at h
  rcases Option.map_eq_some'.mp h with ⟨r', hr', hrev⟩
  subst hrev
  simpa using broadcastDimsRev_length s.reverse t.reverse r' hr'

lemma epeShape_of_broadcast_length_four (s t d : List ℕ)
    (hb : broadcastShapes s t = some d) (hd : d.length = 4) :
    epeShape s t = some [] := by
  match d, hd with
  | [d0, d1, d2, d3], _ =>
    unfold epeShape
    rw [hb]
    simp [dropDim, List.eraseIdx]

/-! ## InferenceRunner: the output buffer

Source (`main.py`):
`flow = torch.tensor([])` and, per test batch,
`flow = torch.cat((flow, flow_), dim=0)`.

A tensor is embedded as its shape together with its elements in row-major
order.  `torch.cat (·, dim=0)` skips a 1-dimensional empty operand
(shape `[0]`, the legacy empty-tensor special case that makes the initial
`torch.tensor([])` usable as a seed value); otherwise both operands must
have the same trailing dimensions, the leading dimensions add, and the
data concatenates.  `none` models the raised shape error. -/

structure STensor where
  shape : List ℕ
  data : List ℚ
deriving DecidableEq, Repr

/-- `torch.tensor([])`: the 1-dimensional empty tensor of shape `[0]`. -/
def emptyFlow : STensor :=
  ⟨[0], []⟩

/-- `torch.cat((a, b), dim=0)`. -/
def cat0 (a b : STensor) : Option STensor :=
  if a.shape = [0] then some b
  else if b.shape = [0] then some a
  else
    match a.shape, b.shape with
    | a0 :: s, b0 :: t =>
      if s = t then some ⟨(a0 + b0) :: s, a.data ++ b.data⟩ else none
    | _, _ => none

/-- The output buffer of the inference loop after processing the per-batch
predictions `batches` in order, starting from `torch.tensor([])`. -/
def inferenceFlow (batches : List STensor) : Option STensor :=
  batches.foldlM cat0 emptyFlow

lemma cat0_of_shapes {s : List ℕ} (hs : s ≠ []) (a b : STensor) (k n : ℕ)
    (ha : a.shape = k :: s) (hb : b.shape = n :: s) :
    cat0 a b = some ⟨(k + n) :: s, a.data ++ b.data⟩ := by
  have ha0 : a.shape ≠ [0] := by rw [ha]; intro h; injection h with _ h2; exact hs h2
  have hb0 : b.shape ≠ [0] := by rw [hb]; intro h; injection h with _ h2; exact hs h2
  unfold cat0
  rw [if_neg ha0, if_neg hb0]
  rw [show (match a.shape, b.shape with
    | a0 :: s, b0 :: t =>
      if s = t then some (⟨(a0 + b0) :: s, a.data ++ b.data⟩ : STensor) else none
    | _, _ => none)
      = if s = s then some (⟨(k + n) :: s, a.data ++ b.data⟩ : STensor) else none
    from by rw [ha, hb]]
  simp

lemma foldlM_cat0_of_shapes {s : List ℕ} (hs : s ≠ []) :
    ∀ (batches : List STensor) (acc : STensor) (k : ℕ),
      acc.shape = k :: s →
      (∀ t ∈ batches, ∃ n, t.shape = n :: s) →
      List.foldlM cat0 acc batches
        = some ⟨(k + ((batches.map fun t => t.shape.headD 0).sum)) :: s,
            acc.data ++ (batches.map STensor.data).flatten⟩ := by
  intro batches
  induction batches with
  | nil =>
    intro acc k hacc _
    cases acc with
    | mk sh da => simp at hacc; simp [List.foldlM, hacc]
  | cons b rest ih =>
    intro acc k hacc hall
    rcases hall b (by simp) with ⟨n, hb⟩
    have hstep := cat0_of_shapes hs acc b k n hacc hb
    have htail : ∀ t ∈ rest, ∃ m, t.shape = m :: s := by
      intro t ht; exact hall t (by simp [ht])
    rw [List.foldlM_cons, hstep]
    show List.foldlM cat0 (⟨(k + n) :: s, acc.data ++ b.data⟩ : STensor) rest = _
    rw [ih ⟨(k + n) :: s, acc.data ++ b.data⟩ (k + n) rfl htail]
    simp [hb, List.append_assoc, Nat.add_assoc]

/-! ## CheckpointManager: save path and reload path

Source (`main.py`):
`model_path = f"checkpoints/model_{current_time}.pth"`,
`torch.save(model.state_dict(), model_path)`, then
`model_path = /content/dl_lecture_competition_pub/checkpoints/model_20240717034219.pth`
and `model.load_state_dict(torch.load(model_path, map_location=device))`.

The file system is an association list from absolute paths to parameter
states (abstracted as `ℕ`); `torch.save` prepends (overwrite wins),
`torch.load` looks up.  The relative save path resolves against the
current working directory. -/

/-- The path the checkpoint is saved to, derived from the wall-clock
timestamp. -/
def checkpointSavePath (current_time : String) : String :=
  "checkpoints/model_" ++ current_time ++ ".pth"

/-- The hard-coded absolute path the model is re-loaded from before
inference. -/
def checkpointLoadPath : String :=
  "/content/dl_lecture_competition_pub/checkpoints/model_20240717034219.pth"

/-- The save path resolved against the working directory. -/
def resolvedSavePath (cwd current_time : String) : String :=
  cwd ++ "/" ++ checkpointSavePath current_time

def lookupFile : List (String × ℕ) → String → Option ℕ
  | [], _ => none
  | (k, v) :: rest, p => if k = p then some v else lookupFile rest p

/-- The parameters the inference model ends up with: save the trained
parameters to the timestamped path, then load whatever the hard-coded
path holds. `fs` is the file system before the save, keyed by absolute
path. -/
def checkpointRoundTrip (fs : List (String × ℕ)) (cwd current_time : String)
    (trained : ℕ) : Option ℕ :=
  lookupFile ((resolvedSavePath cwd current_time, trained) :: fs) checkpointLoadPath

/-! ## Configuration and data-loader construction

Source (`main.py`): the test loader is built as
`DataLoader(test_set, batch_size=args.data_loader.test.batch_size,
shuffle=args.data_loader.test.shuffle, collate_fn=collate_fn,
drop_last=False)` — the shuffle flag comes straight from the
configuration. -/

structure LoaderOptions where
  batch_size : ℕ
  shuffle : Bool
deriving DecidableEq, Repr

structure DataLoaderConfig where
  train : LoaderOptions
  test : LoaderOptions
deriving DecidableEq, Repr

structure DataLoaderArgs where
  batch_size : ℕ
  shuffle : Bool
  drop_last : Bool
deriving DecidableEq, Repr

def buildTrainLoader (cfg : DataLoaderConfig) : DataLoaderArgs :=
  ⟨cfg.train.batch_size, cfg.train.shuffle, false⟩

def buildTestLoader (cfg : DataLoaderConfig) : DataLoaderArgs :=
  ⟨cfg.test.batch_size, cfg.test.shuffle, false⟩

/-! ## SeedController: `set_seed`

Source (`main.py`): `random.seed(seed)`, `torch.manual_seed(seed)`,
`torch.cuda.manual_seed_all(seed)`,
`torch.backends.cudnn.deterministic = True`,
`torch.backends.cudnn.benchmark = False`, `np.random.seed(seed)`.

The process-wide RNG state is embedded as one record per seeded source
(`none` = unseeded/arbitrary prior state) plus the cuDNN mode flags. -/

structure RNGState where
  python_random : Option ℕ
  torch_cpu : Option ℕ
  torch_cuda_all : Option ℕ
  numpy : Option ℕ
  cudnn_deterministic : Bool
  cudnn_benchmark : Bool
deriving DecidableEq, Repr

def set_seed (seed : ℕ) (_prior : RNGState) : RNGState :=
  { python_random := some seed
    torch_cpu := some seed
    torch_cuda_all := some seed
    numpy := some seed
    cudnn_deterministic := true
    cudnn_benchmark := false }

end Main

/-- **C2.** For every pair of flow tensors of equal shape `[B, 2, H, W]`,
`compute_epe_error` returns the scalar obtained by taking the per-pixel
Euclidean norm of the 2-component difference vector, averaging these norms
over the `H×W` spatial locations of each sample, and averaging the
per-sample results uniformly over the batch — i.e. it agrees with the
formula of the spec, `epe_spec_formula`. -/
theorem compute_epe_error_eq_spec_formula (B H W : ℕ)
    (pred_flow gt_flow : Fin B → Fin 2 → Fin H → Fin W → ℝ) :
    Main.compute_epe_error B 2 H W pred_flow gt_flow
      = Main.epe_spec_formula B H W pred_flow gt_flow := by
  unfold Main.compute_epe_error Main.epe_spec_formula
  simp [Fin.sum_univ_two]

/-- **C7.** For all equal-shape flow tensors, the loss is a single
non-negative scalar (finite by construction, since the model computes in
`ℝ`), and it is exactly `0` when `pred_flow` equals `gt_flow`
elementwise. -/
theorem compute_epe_error_nonneg_and_zero_on_eq (B C H W : ℕ)
    (pred_flow gt_flow : Fin B → Fin C → Fin H → Fin W → ℝ) :
    0 ≤ Main.compute_epe_error B C H W pred_flow gt_flow
      ∧ (pred_flow = gt_flow →
          Main.compute_epe_error B C H W pred_flow gt_flow = 0) := by
  constructor
  · unfold Main.compute_epe_error
    positivity
  · intro h
    subst h
    unfold Main.compute_epe_error
    simp

/-- Witness for C7: at the concrete all-zero `[1, 2, 1, 1]` tensors the
loss is non-negative and, the two tensors being equal, exactly `0`. -/
theorem compute_epe_error_nonneg_and_zero_on_eq_witness :
    0 ≤ Main.compute_epe_error 1 2 1 1 Main.zeroFlow Main.zeroFlow
      ∧ Main.compute_epe_error 1 2 1 1 Main.zeroFlow Main.zeroFlow = 0 :=
  ⟨(compute_epe_error_nonneg_and_zero_on_eq 1 2 1 1 Main.zeroFlow Main.zeroFlow).1,
   (compute_epe_error_nonneg_and_zero_on_eq 1 2 1 1 Main.zeroFlow Main.zeroFlow).2 rfl⟩

/-- **C6.** For every epoch with at least one batch, the reported mean loss
is the sum of the per-batch losses divided by the number of batches. -/
theorem epochMeanLoss_eq_sum_div_length (losses : List ℚ) (h : losses ≠ []) :
    Main.epochMeanLoss losses = some (losses.sum / (losses.length : ℚ)) := by
  unfold Main.epochMeanLoss
  rw [if_neg (by simpa using h), Main.epochTotalLoss_eq_sum]

/-- Witness for C6: for per-batch losses `[0.4, 0.6, 0.5]` the reported
epoch mean is exactly `0.5`. -/
theorem epochMeanLoss_eq_sum_div_length_witness :
    Main.epochMeanLoss [2/5, 3/5, 1/2] = some (1/2) :=
  (epochMeanLoss_eq_sum_div_length [2/5, 3/5, 1/2] (by decide)).trans (by norm_num)

/-- **C9.** The end-of-epoch mean-loss computation divides by the number of
batches with no guard: it errors (division by zero, modelled as `none`)
exactly when the training loader yields no batches, and is well-defined on
every non-empty list of per-batch losses. -/
theorem epochMeanLoss_none_iff_empty (losses : List ℚ) :
    Main.epochMeanLoss losses = none ↔ losses = [] := by
  unfold Main.epochMeanLoss
  constructor
  · intro h
    by_cases hl : losses.length = 0
    · exact List.length_eq_zero.mp hl
    · rw [if_neg hl] at h
      exact absurd h (by simp)
  · intro h
    subst h
    simp

/-- **C3 counterexample.** The claim "for every pair of flow tensors whose
shapes differ, the LossEvaluator fails with a shape-mismatch error" is
false: the shapes `[1,2,480,640]` and `[2,2,480,640]` differ, yet the
subtraction broadcasts the size-1 batch dimension and `compute_epe_error`
returns a scalar value rather than raising. -/
theorem epeShape_broadcast_counterexample :
    ([1, 2, 480, 640] : List ℕ) ≠ [2, 2, 480, 640]
      ∧ Main.epeShape [1, 2, 480, 640] [2, 2, 480, 640] = some [] := by
  constructor
  · decide
  · decide

/-- **C3 amended.** For 4-dimensional operand shapes, `compute_epe_error`
fails with a shape-mismatch error exactly when the two shapes are not
broadcast-compatible; pairs that differ only in dimensions where one side
is `1` are silently broadcast and a scalar is returned. -/
theorem epeShape_none_iff_not_broadcastable (s t : List ℕ)
    (hs : s.length = 4) (ht : t.length = 4) :
    Main.epeShape s t = none ↔ Main.broadcastShapes s t = none := by
  constructor
  · intro h
    by_contra hb
    rcases Option.ne_none_iff_exists'.mp hb with ⟨d, hd⟩
    have hdl : d.length = 4 := by
      have := Main.broadcastShapes_length s t d hd
      omega
    rw [Main.epeShape_of_broadcast_length_four s t d hd hdl] at h
    exact absurd h (by simp)
  · intro h
    unfold Main.epeShape
    rw [h]
    rfl

/-- Witness for the amended C3 at the example the spec gives: `[2,2,480,640]` vs
`[3,2,480,640]` are 4-dimensional, not broadcast-compatible (batch sizes 2
and 3), and `compute_epe_error` raises a shape error on them. -/
theorem epeShape_none_iff_not_broadcastable_witness :
    ([2, 2, 480, 640] : List ℕ).length = 4
      ∧ ([3, 2, 480, 640] : List ℕ).length = 4
      ∧ Main.epeShape [2, 2, 480, 640] [3, 2, 480, 640] = none :=
  ⟨rfl, rfl,
    (epeShape_none_iff_not_broadcastable [2, 2, 480, 640] [3, 2, 480, 640]
      rfl rfl).mpr (by decide)⟩

/-- **C4.** For every non-empty sequence of test batches whose predictions
have shape `[nᵢ, 2, 480, 640]`, the inference loop concatenates them along
the batch dimension preserving encounter order: the resulting buffer has
shape `[N, 2, 480, 640]` with `N` the total number of test samples, and
its data is the batch data laid out in encounter order (so for batch
sizes `[2, 3]` the 5 rows are rows 0–1 from batch 1 followed by
rows 2–4 from batch 2). -/
theorem inferenceFlow_concat_in_order (batches : List Main.STensor)
    (hne : batches ≠ [])
    (hsh : ∀ t ∈ batches, ∃ n, t.shape = [n, 2, 480, 640]) :
    Main.inferenceFlow batches
      = some ⟨((batches.map fun t => t.shape.headD 0).sum) :: [2, 480, 640],
          (batches.map Main.STensor.data).flatten⟩ := by
  match batches, hne with
  | b :: rest, _ =>
    rcases hsh b (by simp) with ⟨n, hb⟩
    have hfirst : Main.cat0 Main.emptyFlow b = some b := by
      unfold Main.cat0 Main.emptyFlow
      simp
    unfold Main.inferenceFlow
    rw [List.foldlM_cons, hfirst]
    show List.foldlM Main.cat0 b rest = _
    have htail : ∀ t ∈ rest, ∃ m, t.shape = m :: [2, 480, 640] := by
      intro t ht
      rcases hsh t (by simp [ht]) with ⟨m, hm⟩
      exact ⟨m, hm⟩
    have := Main.foldlM_cat0_of_shapes (s := [2, 480, 640]) (by simp)
      rest b n hb htail
    rw [this]
    cases b with
    | mk sh da =>
      simp at hb
      simp [hb]

/-- Witness for C4: two concrete batches with shapes `[2,2,480,640]` and
`[3,2,480,640]` concatenate to a `[5,2,480,640]` buffer whose data is
the data of batch 1 followed by the data of batch 2. -/
theorem inferenceFlow_concat_in_order_witness :
    Main.inferenceFlow
        [⟨[2, 2, 480, 640], [10, 11]⟩, ⟨[3, 2, 480, 640], [20, 21, 22]⟩]
      = some ⟨[5, 2, 480, 640], [10, 11, 20, 21, 22]⟩ :=
  (inferenceFlow_concat_in_order
      [⟨[2, 2, 480, 640], [10, 11]⟩, ⟨[3, 2, 480, 640], [20, 21, 22]⟩]
      (by simp)
      (by
        intro t ht
        rcases List.mem_cons.mp ht with h | h
        · exact ⟨2, by rw [h]⟩
        · rcases List.mem_cons.mp h with h2 | h2
          · exact ⟨3, by rw [h2]⟩
          · exact absurd h2 (by simp))).trans
    (by decide)

/-- **C10.** If the test loader yields no batches, the inference loop
leaves the output buffer as the initial 1-dimensional empty tensor
`torch.tensor([])`, so the persisted submission array has shape `[0]`
rather than `[0, 2, 480, 640]`. -/
theorem inferenceFlow_empty_loader :
    Main.inferenceFlow [] = some Main.emptyFlow
      ∧ Main.emptyFlow.shape = [0]
      ∧ Main.emptyFlow.shape ≠ [0, 2, 480, 640] :=
  ⟨rfl, rfl, by decide⟩

/-- **C1 counterexample.** The claim that the checkpoint read back before
inference is the one just saved is false: in a run with timestamp
`20261012120000` from working directory
`/content/dl_lecture_competition_pub`, with trained parameters `42` and a
pre-existing file holding parameters `7` at the hard-coded reload path,
the inference model gets parameters `7`, not the just-saved `42`. -/
theorem checkpointRoundTrip_counterexample :
    Main.checkpointRoundTrip [(Main.checkpointLoadPath, 7)]
        "/content/dl_lecture_competition_pub" "20261012120000" 42
      = some 7
      ∧ (7 : ℕ) ≠ 42 := by
  constructor
  · unfold Main.checkpointRoundTrip Main.lookupFile
    rw [if_neg (by decide)]
    unfold Main.lookupFile
    rw [if_pos rfl]
  · decide

/-- **C1 amended.** The checkpoint is saved once after training to the
timestamped path, but the parameters read back before inference come from
the fixed hard-coded path: they are the just-saved parameters exactly when
the resolved save path coincides with the hard-coded load path, and
otherwise whatever the file system already held at the hard-coded path,
independent of the parameters just saved. -/
theorem checkpointRoundTrip_loads_hardcoded_path (fs : List (String × ℕ))
    (cwd current_time : String) (trained : ℕ) :
    Main.checkpointRoundTrip fs cwd current_time trained
      = if Main.resolvedSavePath cwd current_time = Main.checkpointLoadPath
        then some trained
        else Main.lookupFile fs Main.checkpointLoadPath := by
  simp only [Main.checkpointRoundTrip, Main.lookupFile]

/-- **C5 counterexample.** The claim that the test loader never shuffles
under every configuration is false: the code forwards the configuration
flag `data_loader.test.shuffle` to the loader, so a configuration that
sets it `true` yields a shuffling test loader. -/
theorem buildTestLoader_shuffle_counterexample :
    (Main.buildTestLoader ⟨⟨8, false⟩, ⟨1, true⟩⟩).shuffle = true :=
  rfl

/-- **C5 amended.** The shuffle flag of the test loader is taken verbatim
from the configuration field `data_loader.test.shuffle`: the loader is
non-shuffled exactly for configurations that set the flag false (as the
default configuration of the repository does) — the code does not enforce
non-shuffling. -/
theorem buildTestLoader_shuffle_iff_config (cfg : Main.DataLoaderConfig) :
    (Main.buildTestLoader cfg).shuffle = false ↔ cfg.test.shuffle = false :=
  Iff.rfl

/-- **C8.** `set_seed` seeds the general-purpose RNG, the CPU
tensor-library RNG, the accelerator RNG and the numerical-array-library
RNG from the single given seed, and forces the deterministic cuDNN mode
(benchmark off); the resulting RNG state depends only on the seed, so any
downstream computation that is a function of the RNG state (parameter
initialization, data-shuffling order) agrees between two runs with the
same seed and the same environment. -/
theorem set_seed_deterministic (seed : ℕ) (s₁ s₂ : Main.RNGState)
    (downstream : Main.RNGState → List ℚ × List ℕ) :
    Main.set_seed seed s₁ = Main.set_seed seed s₂
      ∧ (Main.set_seed seed s₁).python_random = some seed
      ∧ (Main.set_seed seed s₁).torch_cpu = some seed
      ∧ (Main.set_seed seed s₁).torch_cuda_all = some seed
      ∧ (Main.set_seed seed s₁).numpy = some seed
      ∧ (Main.set_seed seed s₁).cudnn_deterministic = true
      ∧ (Main.set_seed seed s₁).cudnn_benchmark = false
      ∧ downstream (Main.set_seed seed s₁) = downstream (Main.set_seed seed s₂) :=
  ⟨rfl, rfl, rfl, rfl, rfl, rfl, rfl, rfl⟩
